import Mathlib

/-
Verification of the cross-instance caffeine coordination core:
a shallow embedding of `src/state.rs`, `src/backend.rs`, `src/service.rs`
and the timer/role-resolution pieces of `src/app.rs`, with the clock and
every external facility interaction (XDG portal, bus daemon) made explicit
parameters.  Machine integers are modelled as `Nat`/`Int` with the Rust
`as` casts written out.
-/

set_option linter.unusedVariables false

namespace Caffeine

/-- Timer selection enumeration, from `src/state.rs` (`TimerSelection`);
the Rust `Default` is `Infinity`. -/
inductive TimerSelection where
  | Infinity
  | OneHour
  | TwoHours
  | Manual
  deriving DecidableEq, Repr

/-- `TimerSelection::duration_secs`: seconds for a selection, `none` meaning
no bound (`Infinity`, or `Manual` with no minutes supplied). -/
def TimerSelection.duration_secs : TimerSelection → Option Nat → Option Nat
  | .Infinity, _ => none
  | .OneHour, _ => some 3600
  | .TwoHours, _ => some 7200
  | .Manual, manual_mins => manual_mins.map (fun m => m * 60)

/-- Inhibition state value, from `src/state.rs` (`CaffeineState`);
`expiry_ts` is an `i64`, `-1` being the no-expiry sentinel. -/
structure CaffeineState where
  active : Bool
  selection : TimerSelection
  expiry_ts : Int
  deriving DecidableEq, Repr

/-- The Rust cast `t as i64` applied to a `u64` value `t < 2^64`. -/
def u64_as_i64 (t : Nat) : Int :=
  if t < 2 ^ 63 then (t : Int) else (t : Int) - 2 ^ 64

/-- The Rust cast `e as u64` applied to an `i64` value. -/
def i64_as_u64 (e : Int) : Nat :=
  (e % 2 ^ 64).toNat

/-- `CaffeineState::inactive`. -/
def CaffeineState.inactive : CaffeineState :=
  { active := false, selection := .Infinity, expiry_ts := -1 }

/-- The `CaffeineState::active` constructor (named `mk_active` here because
`active` is the field projection): `expiry_ts.map(|t| t as i64).unwrap_or(-1)`. -/
def CaffeineState.mk_active (selection : TimerSelection) (expiry_ts : Option Nat) :
    CaffeineState :=
  { active := true, selection := selection,
    expiry_ts := (expiry_ts.map u64_as_i64).getD (-1) }

/-- `CaffeineState::is_active`. -/
def CaffeineState.is_active (s : CaffeineState) : Bool :=
  s.active

/-- `CaffeineState::remaining_secs`, with the `SystemTime::now()` read made an
explicit `now` parameter (seconds since the epoch, a `u64`). -/
def CaffeineState.remaining_secs (s : CaffeineState) (now : Nat) : Option Nat :=
  if !s.active || s.expiry_ts == -1 then
    none
  else
    let ts := i64_as_u64 s.expiry_ts
    if ts > now then some (ts - now) else some 0

/-- Backend stored-handle slot, from `src/backend.rs` (`BackendState`); the
opaque portal `Request` handle is modelled as a `Nat` token. -/
structure BackendState where
  inhibit_handle : Option Nat
  deriving DecidableEq, Repr

/-- `CaffeineBackend::new`: empty handle slot. -/
def CaffeineBackend.new : BackendState :=
  { inhibit_handle := none }

/-- `CaffeineBackend::inhibit`.  The external XDG-portal interaction (proxy
creation plus the inhibit request) is the parameter `ext`: `Except.ok h` means
the facility granted handle `h`, `Except.error e` that it failed (either step).
Returns the call result, the backend state afterwards, and how many external
facility requests were made.  A held handle short-circuits before any external
request; a failed external request stores nothing. -/
def CaffeineBackend.inhibit (st : BackendState) (ext : Except String Nat) :
    Except String Unit × BackendState × Nat :=
  match st.inhibit_handle with
  | some _ => (Except.ok (), st, 0)
  | none =>
    match ext with
    | Except.ok h => (Except.ok (), { inhibit_handle := some h }, 1)
    | Except.error e => (Except.error e, st, 1)

/-- `CaffeineBackend::uninhibit`.  The external `handle.close()` outcome is the
parameter `close_res`.  The stored handle is taken out of the slot before the
close attempt, exactly as `state.inhibit_handle.take()` does, so the slot is
empty afterwards on both the success and the failure path. -/
def CaffeineBackend.uninhibit (st : BackendState) (close_res : Except String Unit) :
    Except String Unit × BackendState × Nat :=
  match st.inhibit_handle with
  | some _ => (close_res, { inhibit_handle := none }, 1)
  | none => (Except.ok (), st, 0)

/-- Result of one `set_state` RPC on the service: stored state afterwards,
backend state afterwards, D-Bus-level result (`rpc_ok`, the handler always
returns `Ok(())`), the `StateChanged` payload if the handler reached the
broadcast, and the number of external facility calls made. -/
structure SetStateResult where
  new_state : CaffeineState
  backend : BackendState
  rpc_ok : Bool
  emitted : Option CaffeineState
  ext_calls : Nat
  deriving DecidableEq, Repr

/-- `CaffeineService::set_state` from `src/service.rs`, with the clock read and
the two possible external Backend interactions as explicit parameters.  The
human-readable reason string does not influence state and is omitted.  On an
inhibit failure the handler returns `Ok(())` early: stored state untouched, no
broadcast. -/
def set_state (stored : CaffeineState) (bst : BackendState)
    (active : Bool) (selection_idx : Nat) (manual_mins : Nat) (now : Nat)
    (ext : Except String Nat) (close_res : Except String Unit) : SetStateResult :=
  if active then
    let selection : TimerSelection :=
      match selection_idx with
      | 0 => .Infinity
      | 1 => .OneHour
      | 2 => .TwoHours
      | _ => .Manual
    let manual_u64 : Option Nat := if manual_mins > 0 then some manual_mins else none
    let duration := selection.duration_secs manual_u64
    let expiry_ts := duration.map (fun d => now + d)
    match CaffeineBackend.inhibit bst ext with
    | (Except.error _, bst2, n) =>
      { new_state := stored, backend := bst2, rpc_ok := true, emitted := none,
        ext_calls := n }
    | (Except.ok _, bst2, n) =>
      let ns := CaffeineState.mk_active selection expiry_ts
      { new_state := ns, backend := bst2, rpc_ok := true, emitted := some ns,
        ext_calls := n }
  else
    match CaffeineBackend.uninhibit bst close_res with
    | (_, bst2, n) =>
      { new_state := CaffeineState.inactive, backend := bst2, rpc_ok := true,
        emitted := some CaffeineState.inactive, ext_calls := n }

/-- `CaffeineService::get_state`: returns the stored value. -/
def get_state (stored : CaffeineState) : CaffeineState :=
  stored

/-- Condition under which `AppModel::subscription` (`src/app.rs`) runs the
1-second timer stream: the instance's cached state is active. -/
def timer_subscription_active (s : CaffeineState) : Bool :=
  s.is_active

/-- The activation condition as the specification words it, for comparison with
`timer_subscription_active`: cached state active with a finite expiry. -/
def timer_active_spec (s : CaffeineState) : Bool :=
  s.active && !(s.expiry_ts == -1)

/-- The `Message::TimerTick` handler (`src/app.rs`): `some false` when it issues
a `SetState(active=false, ...)` request through the remote proxy, `none` when
the tick does nothing.  It never writes the cached state itself. -/
def timer_tick (s : CaffeineState) (now : Nat) : Option Bool :=
  match s.remaining_secs now with
  | some remaining => if remaining == 0 && s.is_active then some false else none
  | none => none

/-- The session bus daemon's table for the well-known name, external to the
repository: at most one connection owns the name at a time. -/
structure Bus where
  owner : Option Nat
  deriving DecidableEq, Repr

/-- `Connection::request_name` semantics at the bus daemon: the name is granted
exactly when it is currently unowned, and requests are serialized by the
daemon. -/
def request_name (b : Bus) (inst : Nat) : Bus × Bool :=
  match b.owner with
  | some _ => (b, false)
  | none => ({ owner := some inst }, true)

/-- Outcome of the role resolution of `AppModel::init` for one instance:
`service` holds the constructed Backend and initial state when the instance
became the owner; every instance builds a client proxy. -/
structure InstanceRole where
  service : Option (BackendState × CaffeineState)
  has_proxy : Bool
  deriving DecidableEq, Repr

/-- The D-Bus startup task of `AppModel::init` (`src/app.rs`): request the
well-known name; on success construct a fresh Backend and an inactive state and
register the service object; in either case build a client proxy to the
well-known name. -/
def resolver_init (b : Bus) (inst : Nat) : Bus × InstanceRole :=
  match request_name b inst with
  | (b2, true) =>
    (b2, { service := some (CaffeineBackend.new, CaffeineState.inactive),
           has_proxy := true })
  | (b2, false) =>
    (b2, { service := none, has_proxy := true })

/-- Claim C1, counterexample: `SetState(true, 3, 0)` with a succeeding acquire
stores `expiry_ts = -1`, which is not the 30-minute expiry `now + 1800` the
claim demands (here `now = 1000`). -/
theorem C1_counterexample :
    (set_state CaffeineState.inactive CaffeineBackend.new true 3 0 1000
        (Except.ok 7) (Except.ok ())).new_state.expiry_ts = -1 ∧
      ((-1 : Int) ≠ 1000 + 1800) := by
  refine ⟨rfl, by decide⟩

/-- Claim C1 (amended): a `SetState(true, 3, 0)` call whose Backend acquire
succeeds stores the active Manual state with the no-expiry sentinel `-1` — the
invalid manual minutes are recovered by dropping the bound (an unbounded
inhibition), not by substituting a 30-minute default — and the RPC still
returns success to the caller. -/
theorem C1_manual_zero_unbounded (stored : CaffeineState) (bst : BackendState)
    (h : Nat) (now : Nat) (c : Except String Unit) :
    (set_state stored bst true 3 0 now (Except.ok h) c).new_state =
        { active := true, selection := .Manual, expiry_ts := -1 } ∧
      (set_state stored bst true 3 0 now (Except.ok h) c).rpc_ok = true := by
  obtain ⟨ih⟩ := bst
  cases ih <;>
    simp [set_state, CaffeineBackend.inhibit, CaffeineState.mk_active,
      TimerSelection.duration_secs]

/-- Claim C2: when the Backend acquire fails (empty handle slot, external
request errors), a `SetState(active=true, ...)` leaves the stored state exactly
as before, emits no `StateChanged` broadcast, leaves the backend slot empty,
and the RPC still returns success; in particular from the inactive state,
`GetState` afterwards still yields the inactive state. -/
theorem C2_acquire_failure_is_noop (stored : CaffeineState) (idx mins now : Nat)
    (e : String) (c : Except String Unit) :
    (set_state stored { inhibit_handle := none } true idx mins now
        (Except.error e) c).new_state = stored ∧
    (set_state stored { inhibit_handle := none } true idx mins now
        (Except.error e) c).emitted = none ∧
    (set_state stored { inhibit_handle := none } true idx mins now
        (Except.error e) c).rpc_ok = true ∧
    (set_state stored { inhibit_handle := none } true idx mins now
        (Except.error e) c).backend = { inhibit_handle := none } ∧
    get_state (set_state CaffeineState.inactive { inhibit_handle := none } true 0 0 now
        (Except.error e) c).new_state = CaffeineState.inactive := by
  simp [set_state, CaffeineBackend.inhibit, get_state]

/-- Claim C3: the Backend operations are idempotent.  `inhibit` on a held
handle succeeds with no external call and keeps the handle; two `inhibit`
calls in a row (the external grant succeeding) both succeed and make at most
one external call.  `uninhibit` on an empty slot succeeds with no external
call; two `uninhibit` calls in a row (the close succeeding) both succeed and
close at most once.  And after any `uninhibit` — the close succeeding or not —
the stored-handle slot is empty, ownership having been consumed before the
close attempt. -/
theorem C3_backend_idempotent (h hdl : Nat) (bst : BackendState)
    (ext ext2 : Except String Nat) (c c2 : Except String Unit) :
    (CaffeineBackend.inhibit { inhibit_handle := some h } ext =
        (Except.ok (), { inhibit_handle := some h }, 0)) ∧
    ((CaffeineBackend.inhibit bst (Except.ok hdl)).1 = Except.ok () ∧
      (CaffeineBackend.inhibit
          (CaffeineBackend.inhibit bst (Except.ok hdl)).2.1 ext2).1 = Except.ok () ∧
      (CaffeineBackend.inhibit bst (Except.ok hdl)).2.2 +
        (CaffeineBackend.inhibit
          (CaffeineBackend.inhibit bst (Except.ok hdl)).2.1 ext2).2.2 ≤ 1) ∧
    (CaffeineBackend.uninhibit { inhibit_handle := none } c =
        (Except.ok (), { inhibit_handle := none }, 0)) ∧
    ((CaffeineBackend.uninhibit bst (Except.ok ())).1 = Except.ok () ∧
      (CaffeineBackend.uninhibit
          (CaffeineBackend.uninhibit bst (Except.ok ())).2.1 c2).1 = Except.ok () ∧
      (CaffeineBackend.uninhibit bst (Except.ok ())).2.2 +
        (CaffeineBackend.uninhibit
          (CaffeineBackend.uninhibit bst (Except.ok ())).2.1 c2).2.2 ≤ 1) ∧
    (CaffeineBackend.uninhibit bst c).2.1.inhibit_handle = none := by
  obtain ⟨ih⟩ := bst
  cases ih <;> simp [CaffeineBackend.inhibit, CaffeineBackend.uninhibit]

/-- Claim C4: every `SetState(active=false, ...)` — whatever the index, the
minutes and the Backend release outcome — stores the single canonical inactive
value `{active := false, selection := Infinity, expiry_ts := -1}`, leaves the
backend slot empty, broadcasts that inactive state, and returns success. -/
theorem C4_deactivate_unconditional (stored : CaffeineState) (bst : BackendState)
    (idx mins now : Nat) (ext : Except String Nat) (c : Except String Unit) :
    (set_state stored bst false idx mins now ext c).new_state =
        CaffeineState.inactive ∧
    (set_state stored bst false idx mins now ext c).new_state =
        { active := false, selection := .Infinity, expiry_ts := -1 } ∧
    (set_state stored bst false idx mins now ext c).rpc_ok = true ∧
    (set_state stored bst false idx mins now ext c).emitted =
        some CaffeineState.inactive ∧
    (set_state stored bst false idx mins now ext c).backend.inhibit_handle =
        none := by
  obtain ⟨ih⟩ := bst
  cases ih <;> simp [set_state, CaffeineBackend.uninhibit, CaffeineState.inactive]

/-- The `as u64` cast is the identity on genuine (nonnegative, in-range)
timestamps. -/
theorem i64_as_u64_of_nonneg (e : Int) (h0 : 0 ≤ e) (h1 : e < 2 ^ 64) :
    i64_as_u64 e = e.toNat := by
  unfold i64_as_u64
  rw [Int.emod_eq_of_lt h0 h1]

/-- The `as u64` cast adds `2^64` on negative in-range `i64` values. -/
theorem i64_as_u64_of_neg (e : Int) (h0 : -(2 ^ 64) ≤ e) (h1 : e < 0) :
    i64_as_u64 e = (e + 2 ^ 64).toNat := by
  unfold i64_as_u64
  have h2 : e % 2 ^ 64 = e + 2 ^ 64 := by omega
  rw [h2]

/-- The `as i64` cast is the identity below `2^63`. -/
theorem u64_as_i64_small (t : Nat) (h : t < 2 ^ 63) : u64_as_i64 t = (t : Int) := by
  unfold u64_as_i64
  rw [if_pos h]

/-- Claim C5, counterexample: for the active state with `expiry_ts = -2` (not
the sentinel) at `now = 0`, the code returns `some (2^64 - 2)`, not the claimed
`max 0 (expiry - now) = 0`. -/
theorem C5_counterexample :
    CaffeineState.remaining_secs
        { active := true, selection := .Manual, expiry_ts := -2 } 0 =
      some 18446744073709551614 ∧
    (18446744073709551614 : Nat) ≠ (max 0 ((-2 : Int) - 0)).toNat := by
  refine ⟨?_, by decide⟩
  rfl

/-- Claim C5 (amended): `remaining_secs` is a pure function of the state and
`now`; it is `none` whenever the state is inactive (for every `now`) or carries
the `-1` no-expiry sentinel; and for an active state whose `expiry_ts` is a
genuine timestamp (nonnegative, in `i64` range) it equals
`max 0 (expiry - now)` — never negative, monotonically non-increasing as `now`
increases, and `0` for every `now ≥ expiry`.  (For `expiry_ts < -1` the `i64`
is reinterpreted as a `u64`: see the C10 theorem.) -/
theorem C5_remaining_secs_spec (s : CaffeineState) (now now2 : Nat) :
    (s.active = false → s.remaining_secs now = none) ∧
    (s.expiry_ts = -1 → s.remaining_secs now = none) ∧
    (s.active = true → 0 ≤ s.expiry_ts → s.expiry_ts < 2 ^ 63 →
      (s.remaining_secs now = some (s.expiry_ts.toNat - now) ∧
        (now ≤ now2 →
          (s.remaining_secs now2).getD 0 ≤ (s.remaining_secs now).getD 0) ∧
        (s.expiry_ts.toNat ≤ now → s.remaining_secs now = some 0))) := by
  refine ⟨?_, ?_, ?_⟩
  · intro ha
    simp [CaffeineState.remaining_secs, ha]
  · intro he
    simp [CaffeineState.remaining_secs, he]
  · intro ha h0 h1
    have hne : s.expiry_ts ≠ -1 := by omega
    have hbeq : (s.expiry_ts == -1) = false := by simpa using hne
    have hcast : i64_as_u64 s.expiry_ts = s.expiry_ts.toNat :=
      i64_as_u64_of_nonneg _ h0 (by omega)
    have hrem : ∀ m : Nat,
        s.remaining_secs m = some (s.expiry_ts.toNat - m) := by
      intro m
      simp only [CaffeineState.remaining_secs, ha, hbeq, hcast]
      by_cases hgt : s.expiry_ts.toNat > m
      · simp [hgt]
      · simp only [Bool.not_true, Bool.false_or, if_false]
        simp [hgt]
        omega
    refine ⟨hrem now, ?_, ?_⟩
    · intro hle
      rw [hrem now, hrem now2]
      simp only [Option.getD_some]
      omega
    · intro hle
      rw [hrem now]
      have : s.expiry_ts.toNat - now = 0 := by omega
      rw [this]

/-- Claim C5 witness: the amended statement applied at concrete states — an
active one-hour state with expiry 100 seen at `now = 40` and at `now = 150`,
and an inactive state. -/
theorem C5_witness :
    CaffeineState.remaining_secs
        { active := true, selection := .OneHour, expiry_ts := 100 } 40 = some 60 ∧
    CaffeineState.remaining_secs
        { active := true, selection := .OneHour, expiry_ts := 100 } 150 = some 0 ∧
    CaffeineState.remaining_secs
        { active := false, selection := .Infinity, expiry_ts := 100 } 5 = none := by
  have h1 := (C5_remaining_secs_spec
      { active := true, selection := .OneHour, expiry_ts := 100 } 40 150).2.2
      rfl (by norm_num) (by norm_num)
  have h2 := (C5_remaining_secs_spec
      { active := true, selection := .OneHour, expiry_ts := 100 } 150 150).2.2
      rfl (by norm_num) (by norm_num)
  have h3 := (C5_remaining_secs_spec
      { active := false, selection := .Infinity, expiry_ts := 100 } 5 5).1 rfl
  refine ⟨?_, ?_, h3⟩
  · have := h1.1
    simpa using this
  · exact h2.2.2 (by norm_num)

/-- Claim C6, counterexample: `SetState(true, 3, 0)` with a succeeding acquire
(at `now = 2000`) stores `expiry_ts = -1`, not the `now + 0 × 60` expiry that
the claimed unconditional `Manual → manual_minutes × 60` mapping demands. -/
theorem C6_counterexample :
    (set_state CaffeineState.inactive CaffeineBackend.new true 3 0 2000
        (Except.ok 5) (Except.ok ())).new_state.expiry_ts = -1 ∧
      ((-1 : Int) ≠ 2000 + 0 * 60) := by
  refine ⟨rfl, by decide⟩

/-- Claim C6 (amended): with a succeeding Backend, `SetState` maps
`selection_index` `0/1/2` to `Infinity`/`OneHour`/`TwoHours` and every index
`≥ 3` to `Manual`; durations are `Infinity →` no bound (`expiry_ts = -1`),
`OneHour → now + 3600`, `TwoHours → now + 7200`, and `Manual →
now + manual_minutes × 60` for positive minutes (zero minutes yield no bound,
as C1 records); and Scenario A holds: from a fresh instance,
`SetState(true, 1, 0)` then `GetState` gives
`{active := true, selection := OneHour, expiry_ts := now + 3600}`, and a
subsequent `SetState(false, 0, 0)` then `GetState` gives the canonical
inactive state. -/
theorem C6_mapping_and_scenarioA (stored : CaffeineState) (bst : BackendState)
    (h h2 : Nat) (idx mins now now2 : Nat) (c c2 : Except String Unit)
    (hnow : now < 2 ^ 62) (hmins : 1 ≤ mins) (hmins2 : mins < 2 ^ 32)
    (hidx : 3 ≤ idx) :
    ((set_state stored bst true 0 mins now (Except.ok h) c).new_state.selection =
        .Infinity) ∧
    ((set_state stored bst true 1 mins now (Except.ok h) c).new_state.selection =
        .OneHour) ∧
    ((set_state stored bst true 2 mins now (Except.ok h) c).new_state.selection =
        .TwoHours) ∧
    ((set_state stored bst true idx mins now (Except.ok h) c).new_state.selection =
        .Manual) ∧
    ((set_state stored bst true 0 mins now (Except.ok h) c).new_state.expiry_ts =
        -1) ∧
    ((set_state stored bst true 1 mins now (Except.ok h) c).new_state.expiry_ts =
        (now : Int) + 3600) ∧
    ((set_state stored bst true 2 mins now (Except.ok h) c).new_state.expiry_ts =
        (now : Int) + 7200) ∧
    ((set_state stored bst true idx mins now (Except.ok h) c).new_state.expiry_ts =
        (now : Int) + mins * 60) ∧
    (get_state (set_state CaffeineState.inactive CaffeineBackend.new true 1 0 now
          (Except.ok h) c).new_state =
        { active := true, selection := .OneHour, expiry_ts := (now : Int) + 3600 }) ∧
    (get_state (set_state
          (set_state CaffeineState.inactive CaffeineBackend.new true 1 0 now
            (Except.ok h) c).new_state
          (set_state CaffeineState.inactive CaffeineBackend.new true 1 0 now
            (Except.ok h) c).backend
          false 0 0 now2 (Except.ok h2) c2).new_state =
        { active := false, selection := .Infinity, expiry_ts := -1 }) := by
  obtain ⟨k, rfl⟩ : ∃ k, idx = k + 3 := ⟨idx - 3, by omega⟩
  have e1 : u64_as_i64 (now + 3600) = (now : Int) + 3600 := by
    rw [u64_as_i64_small (now + 3600) (by omega)]
    push_cast
    ring
  have e2 : u64_as_i64 (now + 7200) = (now : Int) + 7200 := by
    rw [u64_as_i64_small (now + 7200) (by omega)]
    push_cast
    ring
  have e3 : u64_as_i64 (now + mins * 60) = (now : Int) + mins * 60 := by
    rw [u64_as_i64_small (now + mins * 60) (by omega)]
    push_cast
    ring
  obtain ⟨ih⟩ := bst
  have hm : 0 < mins := hmins
  cases ih <;>
    simp [set_state, CaffeineBackend.inhibit, CaffeineBackend.uninhibit,
      CaffeineBackend.new, CaffeineState.mk_active, CaffeineState.inactive,
      TimerSelection.duration_secs, get_state, hm, e1, e2, e3,
      Nat.pos_iff_ne_zero]

/-- Claim C6 witness: the amended statement applied at a concrete out-of-range
index 9, 45 manual minutes, `now = 1000`, a fresh instance and a succeeding
Backend. -/
theorem C6_witness :
    (set_state CaffeineState.inactive CaffeineBackend.new true 9 45 1000
        (Except.ok 1) (Except.ok ())).new_state.selection =
      TimerSelection.Manual ∧
    (set_state CaffeineState.inactive CaffeineBackend.new true 9 45 1000
        (Except.ok 1) (Except.ok ())).new_state.expiry_ts = 1000 + 45 * 60 := by
  have hc := C6_mapping_and_scenarioA CaffeineState.inactive CaffeineBackend.new
    1 2 9 45 1000 5000 (Except.ok ()) (Except.ok ())
    (by norm_num) (by norm_num) (by norm_num) (by norm_num)
  refine ⟨hc.2.2.2.1, ?_⟩
  have := hc.2.2.2.2.2.2.2.1
  simpa using this

/-- Claim C7: a `SetState(active=true, ...)` while the Backend already holds a
handle (the Service already Inhibiting) keeps the handle, makes no external
facility call, returns success — and is not a no-op at the state layer: the
stored state is replaced by exactly the state a fresh activation from any other
stored state would produce (the newly computed selection and expiry), and that
new state is broadcast. -/
theorem C7_reactivation_updates_state (stored stored2 : CaffeineState) (h : Nat)
    (idx mins now : Nat) (ext : Except String Nat) (c : Except String Unit) :
    ((set_state stored { inhibit_handle := some h } true idx mins now ext c).backend =
        { inhibit_handle := some h }) ∧
    ((set_state stored { inhibit_handle := some h } true idx mins now ext c).ext_calls =
        0) ∧
    ((set_state stored { inhibit_handle := some h } true idx mins now ext c).rpc_ok =
        true) ∧
    ((set_state stored { inhibit_handle := some h } true idx mins now ext c).new_state =
        (set_state stored2 { inhibit_handle := some h } true idx mins now ext
          c).new_state) ∧
    ((set_state stored { inhibit_handle := some h } true idx mins now ext
        c).new_state.active = true) ∧
    ((set_state stored { inhibit_handle := some h } true idx mins now ext c).emitted =
        some (set_state stored { inhibit_handle := some h } true idx mins now ext
          c).new_state) := by
  simp [set_state, CaffeineBackend.inhibit, CaffeineState.mk_active]

/-- Claim C8, counterexample: for the active-unbounded cached state the code's
subscription condition is true while the claimed condition (active with a
finite expiry) is false — the 1-second timer does run, and tick, on an
active-unbounded cached state. -/
theorem C8_counterexample :
    timer_subscription_active
        { active := true, selection := .Infinity, expiry_ts := -1 } = true ∧
      timer_active_spec
        { active := true, selection := .Infinity, expiry_ts := -1 } = false := by
  decide

/-- Claim C8 (amended): the per-instance 1-second timer subscription runs
exactly while the cached state is active — including the active-unbounded case,
where every tick is a no-op (`none`) — and a tick issues a
`SetState(active=false, ...)` request through the remote handle (it never
writes the cached state itself) exactly when `remaining_secs` computes to zero
on an active state. -/
theorem C8_timer_driver (s : CaffeineState) (sel : TimerSelection) (now : Nat) :
    (timer_subscription_active s = s.active) ∧
    (timer_tick s now = some false ↔
      (s.remaining_secs now = some 0 ∧ s.active = true)) ∧
    (timer_tick { active := true, selection := sel, expiry_ts := -1 } now =
        none) := by
  refine ⟨rfl, ?_, ?_⟩
  · unfold timer_tick
    rcases hrem : s.remaining_secs now with _ | r
    · simp
    · rcases ha : s.active with _ | _
      · simp [CaffeineState.is_active, ha]
      · simp [CaffeineState.is_active, ha]
  · simp [timer_tick, CaffeineState.remaining_secs]

/-- Claim C8 witness: the amended statement applied to a concrete expired
active state (tick requests deactivation), a concrete active-unbounded state
(subscription runs, tick is a no-op) and a concrete inactive state. -/
theorem C8_witness :
    timer_subscription_active
        { active := true, selection := .Manual, expiry_ts := 50 } = true ∧
    timer_tick { active := true, selection := .Manual, expiry_ts := 50 } 80 =
        some false ∧
    timer_subscription_active
        { active := true, selection := .Infinity, expiry_ts := -1 } = true ∧
    timer_tick { active := true, selection := .Infinity, expiry_ts := -1 } 80 =
        none ∧
    timer_subscription_active CaffeineState.inactive = false := by
  have h1 := C8_timer_driver
    { active := true, selection := .Manual, expiry_ts := 50 } .Infinity 80
  have h2 := C8_timer_driver
    { active := true, selection := .Infinity, expiry_ts := -1 } .Infinity 80
  have h3 := C8_timer_driver CaffeineState.inactive .Infinity 80
  refine ⟨h1.1, ?_, h2.1, h2.2.2, h3.1⟩
  exact h1.2.1.mpr ⟨by rfl, rfl⟩

/-- Claim C9: with the well-known bus name unowned, two racing role-resolution
attempts (serialized by the bus daemon) end with exactly one instance holding
the Service role — a fresh Backend with an empty handle slot, the initial
inactive state, and the registered object — while the other skips Service
construction and holds only a remote handle; afterwards the name is owned by
the winner alone. -/
theorem C9_at_most_one_owner (i j : Nat) :
    ((resolver_init { owner := none } i).2.service =
        some (CaffeineBackend.new, CaffeineState.inactive)) ∧
    ((resolver_init (resolver_init { owner := none } i).1 j).2.service = none) ∧
    ((resolver_init { owner := none } i).2.has_proxy = true) ∧
    ((resolver_init (resolver_init { owner := none } i).1 j).2.has_proxy = true) ∧
    ((resolver_init (resolver_init { owner := none } i).1 j).1.owner = some i) := by
  simp [resolver_init, request_name]

/-- Claim C10: only the exact value `-1` of `expiry_ts` acts as the no-expiry
sentinel.  For every active state with an in-range `expiry_ts` strictly below
`-1` and any `now` up to `2^62`, `remaining_secs` reinterprets the negative
`i64` as a `u64` (adding `2^64`) and returns `some` of an astronomically large
remaining time (at least `2^62` seconds), never `none` and never `0`. -/
theorem C10_negative_expiry_wraps (e : Int) (sel : TimerSelection) (now : Nat)
    (h1 : -(2 ^ 63) ≤ e) (h2 : e < -1) (h3 : now ≤ 2 ^ 62) :
    CaffeineState.remaining_secs
        { active := true, selection := sel, expiry_ts := e } now =
      some ((e + 2 ^ 64).toNat - now) ∧
    2 ^ 62 ≤ (e + 2 ^ 64).toNat - now ∧
    CaffeineState.remaining_secs
        { active := true, selection := sel, expiry_ts := e } now ≠ some 0 := by
  have hne : e ≠ -1 := by omega
  have hbeq : (e == -1) = false := by simpa using hne
  have hcast : i64_as_u64 e = (e + 2 ^ 64).toNat :=
    i64_as_u64_of_neg e (by omega) (by omega)
  have hbig : 2 ^ 63 ≤ (e + 2 ^ 64).toNat := by omega
  have hgt : (e + 2 ^ 64).toNat > now := by
    have : (2 : Nat) ^ 62 < 2 ^ 63 := by norm_num
    omega
  have hrem : CaffeineState.remaining_secs
      { active := true, selection := sel, expiry_ts := e } now =
        some ((e + 2 ^ 64).toNat - now) := by
    simp only [CaffeineState.remaining_secs, hbeq, hcast]
    simp [hgt]
    intro h5
    omega
  refine ⟨hrem, ?_, ?_⟩
  · have : (2 : Nat) ^ 62 + 2 ^ 62 ≤ 2 ^ 63 := by norm_num
    omega
  · rw [hrem]
    have h4 : (2 : Nat) ^ 62 < 2 ^ 63 := by norm_num
    simp only [ne_eq, Option.some.injEq]
    omega

/-- Claim C10 witness: the theorem applied at `expiry_ts = -2`, `now = 0`: the
remaining time is `some (2^64 - 2)`. -/
theorem C10_witness :
    CaffeineState.remaining_secs
        { active := true, selection := .Manual, expiry_ts := -2 } 0 =
      some (((-2 : Int) + 2 ^ 64).toNat - 0) ∧
    (2 : Nat) ^ 62 ≤ ((-2 : Int) + 2 ^ 64).toNat - 0 := by
  have hc := C10_negative_expiry_wraps (-2) .Manual 0
    (by norm_num) (by norm_num) (by norm_num)
  exact ⟨hc.1, hc.2.1⟩

end Caffeine
